import Mathlib

/-!
# Verification of the podcast-processing pipeline

A shallow embedding of the core of the `ai-podcast-saas` repository:

* tier / feature configuration (`src/lib/tier-config.ts`, `src/lib/tier-utils.ts`)
* the six AI generation tasks (`src/inngest/steps/ai-generation/*`)
* the Convex project mutations (`convex/projects.ts`)
* the workflow orchestrator and retry function
  (`src/inngest/functions/podcast-processor.ts`)
* the bulk upgrade action `generateMissingFeatures`

Machine integers do not occur (all numbers here are array lengths,
character counts and millisecond offsets, which are `Nat`), JavaScript
strings are modelled by `String`, JSON records by structures, and
`Promise.allSettled` outcomes by an explicit sum type.
-/

deriving instance DecidableEq for Except

set_option maxRecDepth 100000

namespace PodcastSaas

/-! ## Tier configuration (`src/lib/tier-config.ts`) -/

/-- Subscription plans, `type PlanName = "free" | "pro" | "ultra"`. -/
inductive PlanName where
  | free
  | pro
  | ultra
deriving DecidableEq, Fintype

/-- Feature identifiers, the values of the `FEATURES` constant. -/
inductive FeatureName where
  | summary
  | social_posts
  | titles
  | hashtags
  | youtube_timestamps
  | key_moments
  | speaker_diarization
deriving DecidableEq, Fintype

/-- Generation-job names, `type JobName` (the values of `FEATURE_TO_JOB_MAP`). -/
inductive JobName where
  | summary
  | socialPosts
  | titles
  | hashtags
  | keyMoments
  | youtubeTimestamps
deriving DecidableEq, Fintype

/-- `PLAN_FEATURES`: the features available to each plan, in source order. -/
def PLAN_FEATURES : PlanName → List FeatureName
  | .free => [.summary]
  | .pro => [.summary, .social_posts, .titles, .hashtags]
  | .ultra => [.summary, .social_posts, .titles, .hashtags,
               .youtube_timestamps, .key_moments, .speaker_diarization]

/-- `planHasFeature` from `src/lib/tier-utils.ts`:
`PLAN_FEATURES[plan].includes(feature)`. -/
def planHasFeature (plan : PlanName) (feature : FeatureName) : Bool :=
  (PLAN_FEATURES plan).contains feature

/-- `FEATURE_TO_JOB_MAP` from `src/lib/tier-config.ts`.  `speaker_diarization`
has no entry in the map, hence `none`. -/
def FEATURE_TO_JOB_MAP : FeatureName → Option JobName
  | .social_posts => some .socialPosts
  | .titles => some .titles
  | .hashtags => some .hashtags
  | .key_moments => some .keyMoments
  | .youtube_timestamps => some .youtubeTimestamps
  | .summary => some .summary
  | .speaker_diarization => none

/-- The keys of `FEATURE_TO_JOB_MAP` in source (object-entry) order; used to
model `Object.entries(FEATURE_TO_JOB_MAP)`. -/
def featureMapKeys : List FeatureName :=
  [.social_posts, .titles, .hashtags, .key_moments, .youtube_timestamps, .summary]

/-- `jobToFeature` as built in `retryJobFunction`:
`Object.fromEntries(Object.entries(FEATURE_TO_JOB_MAP).map(([k, v]) => [v, k]))`,
then indexed at a job name. -/
def jobToFeature (job : JobName) : Option FeatureName :=
  featureMapKeys.find? fun f => FEATURE_TO_JOB_MAP f == some job

/-- The set of entitled generation tasks of a tier: the plan features that
name a generation job, mapped through `FEATURE_TO_JOB_MAP`. -/
def entitledJobs (plan : PlanName) : List JobName :=
  (PLAN_FEATURES plan).filterMap FEATURE_TO_JOB_MAP

/-! ## Transcript data (`src/inngest/types/assemblyai.ts`) -/

/-- An AssemblyAI topic chapter.  `start`/`stop` are millisecond offsets
(the source field `end` is a Lean keyword, modelled as `stop`). -/
structure Chapter where
  start : Nat
  stop : Nat
  headline : String
  summary : String
  gist : String
deriving DecidableEq

/-- `TranscriptWithExtras`, restricted to the fields the generation tasks
read: the full text and the topic chapters.  Time-coded segments, speaker
utterances and `audio_duration` are carried by the source type but no
generation task's control flow depends on them. -/
structure TranscriptWithExtras where
  text : String
  chapters : List Chapter
deriving DecidableEq

/-! ## Generated artifacts (`src/inngest/schemas/ai-outputs.ts`) -/

/-- The `Summary` artifact: `{full, bullets, insights, tldr}`. -/
structure Summary where
  full : String
  bullets : List String
  insights : List String
  tldr : String
deriving DecidableEq

/-- The `SocialPosts` artifact: one post per platform. -/
structure SocialPosts where
  twitter : String
  linkedin : String
  instagram : String
  tiktok : String
  youtube : String
  facebook : String
deriving DecidableEq

/-- The `Titles` artifact. -/
structure Titles where
  youtubeShort : List String
  youtubeLong : List String
  podcastTitles : List String
  seoKeywords : List String
deriving DecidableEq

/-- The `Hashtags` artifact: hashtag lists per platform. -/
structure Hashtags where
  youtube : List String
  instagram : List String
  tiktok : List String
  linkedin : List String
  twitter : List String
deriving DecidableEq

/-- A key moment (shape from `save-to-convex.ts`; the generator itself is
not part of the sources). -/
structure KeyMoment where
  time : String
  timestamp : Nat
  text : String
  description : String
deriving DecidableEq

/-- One YouTube chapter timestamp entry. -/
structure YouTubeTimestamp where
  timestamp : String
  description : String
deriving DecidableEq

/-! ## Zod schema validation

`schema.parse` either returns the value or throws a `ZodError`; we model the
value-level constraints of each schema as an `Except`.  A provider payload
whose JSON cannot be parsed at all behaves identically to one failing the
schema check (both throw inside the same `try`), so it is covered by the
`.error` outcome. -/

/-- `summarySchema`: `bullets` 5–7 items, `insights` 3–5 items. -/
def summarySchemaParse (raw : Summary) : Except String Summary :=
  if raw.bullets.length < 5 ∨ 7 < raw.bullets.length then
    .error "summarySchema: bullets must have 5-7 items"
  else if raw.insights.length < 3 ∨ 5 < raw.insights.length then
    .error "summarySchema: insights must have 3-5 items"
  else .ok raw

/-- `socialPostsSchema`: `twitter` is `z.string().max(280)`. -/
def socialPostsSchemaParse (raw : SocialPosts) : Except String SocialPosts :=
  if 280 < raw.twitter.length then
    .error "socialPostsSchema: twitter must contain at most 280 characters"
  else .ok raw

/-- `titlesSchema`: three `length(3)` arrays and 5–10 SEO keywords. -/
def titlesSchemaParse (raw : Titles) : Except String Titles :=
  if raw.youtubeShort.length ≠ 3 then .error "titlesSchema: youtubeShort must have 3 items"
  else if raw.youtubeLong.length ≠ 3 then .error "titlesSchema: youtubeLong must have 3 items"
  else if raw.podcastTitles.length ≠ 3 then .error "titlesSchema: podcastTitles must have 3 items"
  else if raw.seoKeywords.length < 5 ∨ 10 < raw.seoKeywords.length then
    .error "titlesSchema: seoKeywords must have 5-10 items"
  else .ok raw

/-- `hashtagsSchema`: fixed or ranged list lengths per platform. -/
def hashtagsSchemaParse (raw : Hashtags) : Except String Hashtags :=
  if raw.youtube.length ≠ 5 then .error "hashtagsSchema: youtube must have 5 items"
  else if raw.instagram.length < 6 ∨ 8 < raw.instagram.length then
    .error "hashtagsSchema: instagram must have 6-8 items"
  else if raw.tiktok.length < 5 ∨ 6 < raw.tiktok.length then
    .error "hashtagsSchema: tiktok must have 5-6 items"
  else if raw.linkedin.length ≠ 5 then .error "hashtagsSchema: linkedin must have 5 items"
  else if raw.twitter.length ≠ 5 then .error "hashtagsSchema: twitter must have 5 items"
  else .ok raw

/-! ## Provider call outcomes -/

/-- Outcome of one OpenAI chat-completion call as observed by a generation
task: the call threw (`failure`), it returned with a null/absent message
content (`noContent`), or it returned a content payload decoded as `raw`
(schema constraints not yet checked). -/
inductive ProviderResp (α : Type) where
  | failure (msg : String)
  | noContent
  | content (raw : α)
deriving DecidableEq

/-! ## Generation tasks (`src/inngest/steps/ai-generation/*`)

Each task wraps its provider call and schema validation in a `try`/`catch`
and returns a fallback artifact from the `catch` — a task of this group
never rejects.  The Lean functions take the provider outcome as an
argument and compute the value the TypeScript function resolves with. -/

/-- The `catch`-branch fallback of `generateSummary`. -/
def summaryErrorFallback : Summary :=
  { full := "⚠️ Error generating summary with GPT-4. Please check logs or try again."
    bullets := ["Summary generation failed - see full transcript"]
    insights := ["Error occurred during AI generation"]
    tldr := "Summary generation failed" }

/-- `generateSummary` (`summary.ts`): parse the content against
`summarySchema`; a null content yields the raw-transcript fallback; any
thrown error (provider call, JSON parse, schema) is caught and yields
`summaryErrorFallback`. -/
def generateSummary (transcript : TranscriptWithExtras)
    (resp : ProviderResp Summary) : Summary :=
  match resp with
  | .failure _ => summaryErrorFallback
  | .noContent =>
      { full := transcript.text.take 500
        bullets := ["Full transcript available"]
        insights := ["See transcript"]
        tldr := transcript.text.take 200 }
  | .content raw =>
      match summarySchemaParse raw with
      | .ok s => s
      | .error _ => summaryErrorFallback

/-- The `catch`-branch fallback of `generateSocialPosts` (the strings are
copied byte-for-byte from the source, including its mis-encoded warning
glyphs). -/
def socialPostsErrorFallback : SocialPosts :=
  { twitter := "‚ö†Ô∏è Error generating social post. Check logs for details."
    linkedin := "‚ö†Ô∏è Error generating social post. Check logs for details."
    instagram := "‚ö†Ô∏è Error generating social post. Check logs for details."
    tiktok := "‚ö†Ô∏è Error generating social post. Check logs for details."
    youtube := "‚ö†Ô∏è Error generating social post. Check logs for details."
    facebook := "‚ö†Ô∏è Error generating social post. Check logs for details." }

/-- The null-content fallback posts of `generateSocialPosts`. -/
def socialPostsNoContentFallback : SocialPosts :=
  { twitter := "New podcast episode!"
    linkedin := "Check out our latest podcast."
    instagram := "New episode out now! üéôÔ∏è"
    tiktok := "New podcast!"
    youtube := "Watch our latest episode."
    facebook := "New podcast available!" }

/-- The post-parse safety check of `generateSocialPosts`: if the twitter
post exceeds 280 characters it is replaced by its first 277 characters
followed by `"..."` (`socialPosts.twitter.substring(0, 277) + "..."`). -/
def twitterSafetyCheck (posts : SocialPosts) : SocialPosts :=
  if 280 < posts.twitter.length then
    { posts with twitter := posts.twitter.take 277 ++ "..." }
  else posts

/-- `generateSocialPosts` (`social-posts.ts`).  Note the control flow: the
safety check runs after a successful `socialPostsSchema.parse` (or on the
null-content fallback), while a schema violation throws into the `catch`,
which returns `socialPostsErrorFallback` without truncating. -/
def generateSocialPosts (resp : ProviderResp SocialPosts) : SocialPosts :=
  match resp with
  | .failure _ => socialPostsErrorFallback
  | .noContent => twitterSafetyCheck socialPostsNoContentFallback
  | .content raw =>
      match socialPostsSchemaParse raw with
      | .ok posts => twitterSafetyCheck posts
      | .error _ => socialPostsErrorFallback

/-- The `catch`-branch fallback of `generateTitles`. -/
def titlesErrorFallback : Titles :=
  { youtubeShort := ["⚠️ Title generation failed"]
    youtubeLong := ["⚠️ Title generation failed - check logs"]
    podcastTitles := ["⚠️ Title generation failed"]
    seoKeywords := ["error"] }

/-- `generateTitles` (`titles.ts`): same catch-all shape as the summary task. -/
def generateTitles (resp : ProviderResp Titles) : Titles :=
  match resp with
  | .failure _ => titlesErrorFallback
  | .noContent =>
      { youtubeShort := ["Podcast Episode"]
        youtubeLong := ["Podcast Episode - Full Discussion"]
        podcastTitles := ["New Episode"]
        seoKeywords := ["podcast"] }
  | .content raw =>
      match titlesSchemaParse raw with
      | .ok t => t
      | .error _ => titlesErrorFallback

/-- The `catch`-branch fallback of `generateHashtags`. -/
def hashtagsErrorFallback : Hashtags :=
  { youtube := ["⚠️ Hashtag generation failed"]
    instagram := ["⚠️ Hashtag generation failed"]
    tiktok := ["⚠️ Hashtag generation failed"]
    linkedin := ["⚠️ Hashtag generation failed"]
    twitter := ["⚠️ Hashtag generation failed"] }

/-- `generateHashtags` (`hashtags.ts`): same catch-all shape. -/
def generateHashtags (resp : ProviderResp Hashtags) : Hashtags :=
  match resp with
  | .failure _ => hashtagsErrorFallback
  | .noContent =>
      { youtube := ["#Podcast"]
        instagram := ["#Podcast", "#Content"]
        tiktok := ["#Podcast"]
        linkedin := ["#Podcast"]
        twitter := ["#Podcast"] }
  | .content raw =>
      match hashtagsSchemaParse raw with
      | .ok h => h
      | .error _ => hashtagsErrorFallback

/-! ## YouTube timestamps (`youtube-timestamps.ts`) and `formatTimestamp` -/

/-- `String(n).padStart(2, "0")` for a natural number. -/
def pad2 (n : Nat) : String :=
  if n < 10 then "0" ++ toString n else toString n

/-- `formatTimestamp` from `src/lib/format.ts` (seconds already integral in
every call site modelled here, so `Math.floor` is the identity). -/
def formatTimestamp (seconds : Nat) (padHours : Bool) (forceHours : Bool) : String :=
  let hours := seconds / 3600
  let minutes := (seconds % 3600) / 60
  let secs := seconds % 60
  let hoursStr := if padHours then pad2 hours else toString hours
  let minutesStr := pad2 minutes
  let secsStr := pad2 secs
  if 0 < hours ∨ forceHours then
    hoursStr ++ ":" ++ minutesStr ++ ":" ++ secsStr
  else
    minutesStr ++ ":" ++ secsStr

/-- One parsed element of the GPT response `{"titles": [{index, title}]}`. -/
structure AiTitle where
  index : Nat
  title : String
deriving DecidableEq

/-- The per-chapter record `chapterData` built by `generateYouTubeTimestamps`. -/
structure ChapterDatum where
  index : Nat
  timestamp : Nat
  headline : String
  summary : String
  gist : String
deriving DecidableEq

/-- `generateYouTubeTimestamps` (`youtube-timestamps.ts`).  Throws when the
transcript has no chapters; the provider call is *not* wrapped in a
`try`/`catch`, so a provider failure rejects (`resp = .error`).  A GPT
response whose JSON cannot be parsed degrades to an empty `aiTitles` list,
which is an `.ok []` outcome here.  `aiTitle?.title || chapter.headline`
falls back to the headline when the matched title is absent or empty. -/
def generateYouTubeTimestamps (transcript : TranscriptWithExtras)
    (resp : Except String (List AiTitle)) : Except String (List YouTubeTimestamp) :=
  let chapters := transcript.chapters
  if chapters.isEmpty then
    .error "No chapters available from AssemblyAI. Cannot generate YouTube timestamps."
  else
    match resp with
    | .error msg => .error msg
    | .ok aiTitles =>
        let chaptersToUse := chapters.take 100
        let chapterData := chaptersToUse.enum.map fun p =>
          ChapterDatum.mk p.1 (p.2.start / 1000) p.2.headline p.2.summary p.2.gist
        let aiTimestamps := chapterData.map fun chapter =>
          let aiTitle := aiTitles.find? fun t => t.index == chapter.index
          (chapter.timestamp,
           match aiTitle with
           | some t => if t.title = "" then chapter.headline else t.title
           | none => chapter.headline)
        .ok (aiTimestamps.map fun item =>
          { timestamp := formatTimestamp item.1 false false
            description := item.2 })

/-! ## Project documents and Convex mutations (`convex/projects.ts`)

A Convex `db.patch` updates exactly the listed fields of the document and
leaves the others untouched; each mutation below is the corresponding pure
state transformer.  `Date.now()` is modelled by an explicit `now`
argument. -/

/-- `status` field of a project. -/
inductive ProjectStatus where
  | uploaded
  | processing
  | completed
  | failed
deriving DecidableEq

/-- Phase value of `jobStatus.transcription` / `jobStatus.contentGeneration`. -/
inductive JobPhase where
  | pending
  | running
  | completed
  | failed
deriving DecidableEq

/-- The `jobStatus` record. -/
structure JobStatusRec where
  transcription : JobPhase
  contentGeneration : JobPhase
deriving DecidableEq

/-- The validated shape of `recordError`'s optional `details` argument:
`v.object({statusCode: v.optional(v.number()), stack: v.optional(v.string())})`. -/
structure ErrorDetails where
  statusCode : Option Nat
  stack : Option String
deriving DecidableEq

/-- The JavaScript value a caller passes for `recordError`'s `details`
argument: omitted, a conforming `{statusCode?, stack?}` object, or some
other value — in this codebase a string (`error.stack` /
`String(error)`), which the argument validator rejects. -/
inductive DetailsArg where
  | absent
  | obj (statusCode : Option Nat) (stack : Option String)
  | str (s : String)
deriving DecidableEq

/-- The project-level `error` record written by `recordError`. -/
structure ErrorInfo where
  message : String
  step : String
  timestamp : Nat
  details : Option ErrorDetails
deriving DecidableEq

/-- The `jobErrors` value: the Convex validator is an object of six
optional strings, one per generation job. -/
structure JobErrors where
  keyMoments : Option String
  summary : Option String
  socialPosts : Option String
  titles : Option String
  hashtags : Option String
  youtubeTimestamps : Option String
deriving DecidableEq

/-- The empty `jobErrors` object `{}`. -/
def emptyJobErrors : JobErrors :=
  ⟨none, none, none, none, none, none⟩

/-- Read the entry of a `jobErrors` object for one job name. -/
def JobErrors.get (je : JobErrors) : JobName → Option String
  | .keyMoments => je.keyMoments
  | .summary => je.summary
  | .socialPosts => je.socialPosts
  | .titles => je.titles
  | .hashtags => je.hashtags
  | .youtubeTimestamps => je.youtubeTimestamps

/-- `delete updatedErrors[job]` on a `jobErrors` object. -/
def JobErrors.erase (je : JobErrors) : JobName → JobErrors
  | .keyMoments => { je with keyMoments := none }
  | .summary => { je with summary := none }
  | .socialPosts => { je with socialPosts := none }
  | .titles => { je with titles := none }
  | .hashtags => { je with hashtags := none }
  | .youtubeTimestamps => { je with youtubeTimestamps := none }

/-- The object `{ [job]: msg }`. -/
def singletonJobErrors (job : JobName) (msg : String) : JobErrors :=
  match job with
  | .keyMoments => { emptyJobErrors with keyMoments := some msg }
  | .summary => { emptyJobErrors with summary := some msg }
  | .socialPosts => { emptyJobErrors with socialPosts := some msg }
  | .titles => { emptyJobErrors with titles := some msg }
  | .hashtags => { emptyJobErrors with hashtags := some msg }
  | .youtubeTimestamps => { emptyJobErrors with youtubeTimestamps := some msg }

/-- A project document, restricted to the fields the orchestrator, retry
function and upgrade action read or write.  Identity, owner, file metadata
and soft-delete fields are never consulted by the verified control flow. -/
structure Project where
  status : ProjectStatus
  jobStatus : JobStatusRec
  error : Option ErrorInfo
  jobErrors : Option JobErrors
  transcript : Option TranscriptWithExtras
  summary : Option Summary
  socialPosts : Option SocialPosts
  titles : Option Titles
  hashtags : Option Hashtags
  keyMoments : Option (List KeyMoment)
  youtubeTimestamps : Option (List YouTubeTimestamp)
  completedAt : Option Nat
  updatedAt : Nat
deriving DecidableEq

/-- Mutation `updateProjectStatus`: patches `status` (and `completedAt`
when the new status is `completed`). -/
def updateProjectStatus (p : Project) (status : ProjectStatus) (now : Nat) : Project :=
  if status = .completed then
    { p with status := status, completedAt := some now, updatedAt := now }
  else
    { p with status := status, updatedAt := now }

/-- Mutation `updateJobStatus`: merges the provided phases into the
existing `jobStatus` record (`{...project.jobStatus, ...provided}`). -/
def updateJobStatus (p : Project) (transcription contentGeneration : Option JobPhase)
    (now : Nat) : Project :=
  { p with
    jobStatus :=
      { transcription := transcription.getD p.jobStatus.transcription
        contentGeneration := contentGeneration.getD p.jobStatus.contentGeneration }
    updatedAt := now }

/-- Mutation `saveTranscript`. -/
def saveTranscript (p : Project) (t : TranscriptWithExtras) (now : Nat) : Project :=
  { p with transcript := some t, updatedAt := now }

/-- Mutation `recordError`, including its Convex argument validator: the
`details` argument must be absent or a `{statusCode?, stack?}` object; any
other value (such as the string the orchestrator's top-level catch
passes) makes the call throw an argument-validation error before the
patch runs, leaving the document untouched.  A valid call marks the
project failed and stores the error record wholesale (a later valid call
overwrites an earlier one). -/
def recordError (p : Project) (message step : String) (details : DetailsArg)
    (now : Nat) : Except String Project :=
  match details with
  | .str _ =>
      .error "ArgumentValidationError: the details argument must be an object"
  | .absent =>
      .ok { p with
            status := .failed
            error := some { message := message, step := step, timestamp := now, details := none }
            updatedAt := now }
  | .obj statusCode stack =>
      .ok { p with
            status := .failed
            error := some { message := message, step := step, timestamp := now,
                            details := some { statusCode := statusCode, stack := stack } }
            updatedAt := now }

/-- Mutation `saveJobErrors`: `db.patch(projectId, { jobErrors: args.jobErrors })`
— the whole `jobErrors` field is replaced by the argument object. -/
def saveJobErrors (p : Project) (jobErrors : JobErrors) (now : Nat) : Project :=
  { p with jobErrors := some jobErrors, updatedAt := now }

/-- The optional-field argument object of `saveGeneratedContent`. -/
structure GeneratedContent where
  keyMoments : Option (List KeyMoment)
  summary : Option Summary
  socialPosts : Option SocialPosts
  titles : Option Titles
  hashtags : Option Hashtags
  youtubeTimestamps : Option (List YouTubeTimestamp)
deriving DecidableEq

/-- The all-absent argument object. -/
def emptyGeneratedContent : GeneratedContent :=
  ⟨none, none, none, none, none, none⟩

/-- Patch helper: a provided field overwrites, an absent one is left alone. -/
def patchField {α : Type} (provided old : Option α) : Option α :=
  match provided with
  | some v => some v
  | none => old

/-- Mutation `saveGeneratedContent`: patches exactly the provided artifact
fields in one atomic write. -/
def saveGeneratedContent (p : Project) (c : GeneratedContent) (now : Nat) : Project :=
  { p with
    keyMoments := patchField c.keyMoments p.keyMoments
    summary := patchField c.summary p.summary
    socialPosts := patchField c.socialPosts p.socialPosts
    titles := patchField c.titles p.titles
    hashtags := patchField c.hashtags p.hashtags
    youtubeTimestamps := patchField c.youtubeTimestamps p.youtubeTimestamps
    updatedAt := now }

/-! ## The workflow orchestrator (`podcast-processor.ts`) -/

/-- The external world of one workflow run: the transcription provider's
outcome and, for each generation task, its provider-call outcome.

`keyMomentsResult` — Modelled from the spec: the Key Moments task source
(`key-moments.ts`) is not among the repository files, only its import and
call sites are.  Per §4.3 of the spec a generation task either returns its
artifact or raises a typed error that the caller catches, so its outcome
is taken to be an arbitrary `Except`. -/
structure GenEnv where
  transcriptionResult : Except String TranscriptWithExtras
  summaryResp : ProviderResp Summary
  socialResp : ProviderResp SocialPosts
  titlesResp : ProviderResp Titles
  hashtagsResp : ProviderResp Hashtags
  keyMomentsResult : Except String (List KeyMoment)
  ytResp : Except String (List AiTitle)

/-- The `any`-typed value of a fulfilled generation promise. -/
inductive GeneratedValue where
  | summary (s : Summary)
  | socialPosts (p : SocialPosts)
  | titles (t : Titles)
  | hashtags (h : Hashtags)
  | keyMoments (k : List KeyMoment)
  | youtubeTimestamps (l : List YouTubeTimestamp)
deriving DecidableEq

/-- A `Promise.allSettled` element: `{status: "fulfilled", value}` or
`{status: "rejected", reason}` (reasons normalised to their message
string, as the collector does). -/
inductive Settled where
  | fulfilled (value : GeneratedValue)
  | rejected (reason : String)
deriving DecidableEq

/-- The settled outcome of one generation job under a given environment.
The four `try`/`catch` tasks always fulfil; key moments and YouTube
timestamps reject when their computation throws. -/
def runTask (env : GenEnv) (transcript : TranscriptWithExtras) : JobName → Settled
  | .summary => .fulfilled (.summary (generateSummary transcript env.summaryResp))
  | .socialPosts => .fulfilled (.socialPosts (generateSocialPosts env.socialResp))
  | .titles => .fulfilled (.titles (generateTitles env.titlesResp))
  | .hashtags => .fulfilled (.hashtags (generateHashtags env.hashtagsResp))
  | .keyMoments =>
      match env.keyMomentsResult with
      | .ok k => .fulfilled (.keyMoments k)
      | .error e => .rejected e
  | .youtubeTimestamps =>
      match generateYouTubeTimestamps transcript env.ytResp with
      | .ok l => .fulfilled (.youtubeTimestamps l)
      | .error e => .rejected e

/-- The `jobNames` list assembled by the processor: summary for every
plan, then the PRO additions, then the ULTRA additions. -/
def jobsFor (plan : PlanName) : List JobName :=
  [.summary]
    ++ (if plan = .pro ∨ plan = .ultra then [.socialPosts, .titles, .hashtags] else [])
    ++ (if plan = .ultra then [.keyMoments, .youtubeTimestamps] else [])

/-- First collection pass: `generatedContent[jobName] = result.value` for
every fulfilled result. -/
def collectSucceeded (settled : List (JobName × Settled)) : List (JobName × GeneratedValue) :=
  settled.filterMap fun p =>
    match p.2 with
    | .fulfilled v => some (p.1, v)
    | .rejected _ => none

/-- Second collection pass: `jobErrors[jobName] = errorMessage` for every
rejected result. -/
def collectFailed (settled : List (JobName × Settled)) : List (JobName × String) :=
  settled.filterMap fun p =>
    match p.2 with
    | .rejected e => some (p.1, e)
    | .fulfilled _ => none

/-- Assemble the `jobErrors` record from the collected failures (each job
name occurs at most once in a run, so `find?` is the record assignment). -/
def jobErrorsOf (failed : List (JobName × String)) : JobErrors :=
  { keyMoments := (failed.find? fun q => q.1 == .keyMoments).map Prod.snd
    summary := (failed.find? fun q => q.1 == .summary).map Prod.snd
    socialPosts := (failed.find? fun q => q.1 == .socialPosts).map Prod.snd
    titles := (failed.find? fun q => q.1 == .titles).map Prod.snd
    hashtags := (failed.find? fun q => q.1 == .hashtags).map Prod.snd
    youtubeTimestamps := (failed.find? fun q => q.1 == .youtubeTimestamps).map Prod.snd }

/-- Project a collected success onto the matching artifact field. -/
def generatedContentOf (succeeded : List (JobName × GeneratedValue)) : GeneratedContent :=
  { keyMoments := (succeeded.find? fun q => q.1 == .keyMoments).bind fun q =>
      match q.2 with | .keyMoments k => some k | _ => none
    summary := (succeeded.find? fun q => q.1 == .summary).bind fun q =>
      match q.2 with | .summary s => some s | _ => none
    socialPosts := (succeeded.find? fun q => q.1 == .socialPosts).bind fun q =>
      match q.2 with | .socialPosts s => some s | _ => none
    titles := (succeeded.find? fun q => q.1 == .titles).bind fun q =>
      match q.2 with | .titles t => some t | _ => none
    hashtags := (succeeded.find? fun q => q.1 == .hashtags).bind fun q =>
      match q.2 with | .hashtags h => some h | _ => none
    youtubeTimestamps := (succeeded.find? fun q => q.1 == .youtubeTimestamps).bind fun q =>
      match q.2 with | .youtubeTimestamps l => some l | _ => none }

/-- The observable result of one workflow run: the final project document
and the generation jobs that were launched. -/
structure WorkflowRun where
  project : Project
  launchedJobs : List JobName
deriving DecidableEq

/-- `podcastProcessor`, one attempt, as the sequential composition of its
steps.  On transcription failure the stage's own `catch` records a
`"transcription"` error (no `details` argument — the call validates and
lands) and rethrows; the orchestrator's top-level `catch` then attempts a
`"workflow"` record whose `details` argument is a string (`error.stack` /
`String(error)`, represented here by the message — any string fails the
object validator), so that mutation throws and the surrounding cleanup
`catch` swallows the failure, leaving the document as the stage wrote it;
no generation job is launched.  On transcription success the transcript
is persisted by the stage itself, the entitled jobs all settle, failures
are collected into one `saveJobErrors` write (only when non-empty),
content generation is marked completed, succeeded artifacts are
batch-written and the project is marked completed. -/
def podcastProcessor (env : GenEnv) (plan : PlanName) (p0 : Project) (now : Nat) :
    WorkflowRun :=
  let p1 := updateProjectStatus p0 .processing now
  let p2 := updateJobStatus p1 (some .running) none now
  match env.transcriptionResult with
  | .error msg =>
      let p3 := match recordError p2 msg "transcription" .absent now with
        | .ok q => q
        | .error _ => p2
      let p4 := match recordError p3 msg "workflow" (.str msg) now with
        | .ok q => q
        | .error _ => p3
      { project := p4, launchedJobs := [] }
  | .ok transcript =>
      let p3 := saveTranscript p2 transcript now
      let p4 := updateJobStatus p3 (some .completed) none now
      let p5 := updateJobStatus p4 none (some .running) now
      let jobNames := jobsFor plan
      let settled := jobNames.map fun j => (j, runTask env transcript j)
      let generatedContent := collectSucceeded settled
      let jobErrors := collectFailed settled
      let p6 := if jobErrors.isEmpty then p5 else saveJobErrors p5 (jobErrorsOf jobErrors) now
      let p7 := updateJobStatus p6 none (some .completed) now
      let p8 := saveGeneratedContent p7 (generatedContentOf generatedContent) now
      let p9 := updateProjectStatus p8 .completed now
      { project := p9, launchedJobs := jobNames }

/-! ## The retry function (`retryJobFunction` in `podcast-processor.ts`) -/

/-- Result of one `retryJobFunction` run: the project state after all
writes, and the thrown error message when the run threw. -/
structure RetryOutcome where
  project : Project
  thrown : Option String
deriving DecidableEq

/-- The entitlement error message thrown by `retryJobFunction`. -/
def notEntitledMessage (job : String) : String :=
  "This feature (" ++ job ++ ") is not available on your current plan. Please upgrade to access it."

/-- Source spelling of each job name (the event payload string). -/
def jobNameString : JobName → String
  | .keyMoments => "keyMoments"
  | .summary => "summary"
  | .socialPosts => "socialPosts"
  | .titles => "titles"
  | .hashtags => "hashtags"
  | .youtubeTimestamps => "youtubeTimestamps"

/-- The chapter-precondition error message of `retryJobFunction`. -/
def noChaptersMessage (job : JobName) : String :=
  "Cannot generate " ++ jobNameString job ++
    ": transcript has no chapters. This podcast may be too short or lack distinct topics for chapter detection."

/-- The `switch (job)` body of `retryJobFunction`: regenerate the one job
and on success write its artifact through `saveGeneratedContent`.  Returns
the regeneration failure message instead when the generator throws. -/
def retrySwitch (env : GenEnv) (transcript : TranscriptWithExtras) (job : JobName)
    (p : Project) (now : Nat) : Except String Project :=
  match job with
  | .keyMoments =>
      match env.keyMomentsResult with
      | .ok result =>
          .ok (saveGeneratedContent p { emptyGeneratedContent with keyMoments := some result } now)
      | .error e => .error e
  | .summary =>
      .ok (saveGeneratedContent p
        { emptyGeneratedContent with summary := some (generateSummary transcript env.summaryResp) } now)
  | .socialPosts =>
      .ok (saveGeneratedContent p
        { emptyGeneratedContent with socialPosts := some (generateSocialPosts env.socialResp) } now)
  | .titles =>
      .ok (saveGeneratedContent p
        { emptyGeneratedContent with titles := some (generateTitles env.titlesResp) } now)
  | .hashtags =>
      .ok (saveGeneratedContent p
        { emptyGeneratedContent with hashtags := some (generateHashtags env.hashtagsResp) } now)
  | .youtubeTimestamps =>
      match generateYouTubeTimestamps transcript env.ytResp with
      | .ok result =>
          .ok (saveGeneratedContent p
            { emptyGeneratedContent with youtubeTimestamps := some result } now)
      | .error e => .error e

/-- `retryJobFunction`, one attempt.  In order: the entitlement check
against the current plan, the transcript lookup, the empty-text check, the
chapter precondition for `keyMoments`/`youtubeTimestamps` — all of these
throw *before* the `try` block, leaving the project untouched.  Then the
regeneration: on success the artifact is saved and the `clear-job-error`
step writes back the originally-read `jobErrors` with this job's entry
deleted; on failure the `catch` writes `{ [job]: message }` through
`saveJobErrors` and rethrows.  (`originalPlan` is only logged.) -/
def retryJobFunction (env : GenEnv) (job : JobName)
    (currentPlan originalPlan : PlanName) (p : Project) (now : Nat) : RetryOutcome :=
  let entitlementBlocked :=
    match jobToFeature job with
    | some featureKey => !planHasFeature currentPlan featureKey
    | none => false
  if entitlementBlocked then
    { project := p, thrown := some (notEntitledMessage (jobNameString job)) }
  else
    match p.transcript with
    | none => { project := p, thrown := some "Project or transcript not found" }
    | some transcript =>
        if transcript.text.length = 0 then
          { project := p
            thrown := some "Cannot generate content: transcript text is empty. Please re-upload the file." }
        else if (job = .keyMoments ∨ job = .youtubeTimestamps) ∧ transcript.chapters.isEmpty then
          { project := p, thrown := some (noChaptersMessage job) }
        else
          match retrySwitch env transcript job p now with
          | .ok p1 =>
              let currentErrors := p.jobErrors.getD emptyJobErrors
              let updatedErrors := currentErrors.erase job
              { project := saveJobErrors p1 updatedErrors now, thrown := none }
          | .error msg =>
              { project := saveJobErrors p (singletonJobErrors job msg) now
                thrown := some msg }

/-! ## The bulk upgrade action (`generateMissingFeatures`) -/

/-- `Boolean(project[jobName])`: artifact presence on the project. -/
def hasData (p : Project) : JobName → Bool
  | .keyMoments => p.keyMoments.isSome
  | .summary => p.summary.isSome
  | .socialPosts => p.socialPosts.isSome
  | .titles => p.titles.isSome
  | .hashtags => p.hashtags.isSome
  | .youtubeTimestamps => p.youtubeTimestamps.isSome

/-- The original-tier inference of `generateMissingFeatures`: ultra if any
ultra-only artifact is present, else pro if any pro artifact is present,
else free. -/
def inferOriginalPlan (p : Project) : PlanName :=
  if p.keyMoments.isSome || p.youtubeTimestamps.isSome then .ultra
  else if p.socialPosts.isSome || p.titles.isSome || p.hashtags.isSome then .pro
  else .free

/-- The `missingJobs` loop of `generateMissingFeatures`: walk the current
plan's features, keep those that name a job whose artifact is absent. -/
def missingJobsFor (currentPlan : PlanName) (p : Project) : List JobName :=
  (PLAN_FEATURES currentPlan).filterMap fun feature =>
    match FEATURE_TO_JOB_MAP feature with
    | none => none
    | some jobName => if hasData p jobName then none else some jobName

/-- `generateMissingFeatures` (server action): computes the missing jobs
and sends one `podcast/retry-job` event per element; throws when nothing
is missing.  The auth / ownership guards are upstream of this logic and
not modelled.  Returns the list of jobs for which an event is sent. -/
def generateMissingFeatures (currentPlan : PlanName) (p : Project) :
    Except String (List JobName) :=
  let missingJobs := missingJobsFor currentPlan p
  if missingJobs.isEmpty then
    .error "No missing features to generate. All features for your plan are already available."
  else
    .ok missingJobs

/-! ## Concrete fixtures used by witnesses and counterexamples -/

/-- A transcript chapter used in concrete runs. -/
def testChapter : Chapter :=
  { start := 0, stop := 60000, headline := "Intro", summary := "The introduction", gist := "intro" }

/-- A transcript with text and one chapter. -/
def testTranscript : TranscriptWithExtras :=
  { text := "Welcome to the show.", chapters := [testChapter] }

/-- A transcript with text but no chapters. -/
def noChapterTranscript : TranscriptWithExtras :=
  { text := "Welcome to the show.", chapters := [] }

/-- A freshly-created project document. -/
def blankProject : Project :=
  { status := .uploaded
    jobStatus := { transcription := .pending, contentGeneration := .pending }
    error := none, jobErrors := none, transcript := none
    summary := none, socialPosts := none, titles := none, hashtags := none
    keyMoments := none, youtubeTimestamps := none
    completedAt := none, updatedAt := 0 }

/-- Environment of a run where transcription succeeds and all four
pro-tier generation providers fail. -/
def env4Fail : GenEnv :=
  { transcriptionResult := .ok testTranscript
    summaryResp := .failure "summary provider down"
    socialResp := .failure "social provider down"
    titlesResp := .failure "titles provider down"
    hashtagsResp := .failure "hashtags provider down"
    keyMomentsResult := .error "unused"
    ytResp := .error "unused" }

/-- Environment of a run where the transcription provider fails. -/
def envTransFail : GenEnv :=
  { transcriptionResult := .error "AssemblyAI transcription failed"
    summaryResp := .noContent, socialResp := .noContent
    titlesResp := .noContent, hashtagsResp := .noContent
    keyMomentsResult := .error "unused", ytResp := .error "unused" }

/-- Environment where only the YouTube-timestamps provider call fails. -/
def envYtFail : GenEnv :=
  { transcriptionResult := .ok testTranscript
    summaryResp := .noContent, socialResp := .noContent
    titlesResp := .noContent, hashtagsResp := .noContent
    keyMomentsResult := .error "unused"
    ytResp := .error "yt provider down" }

/-- A completed project carrying two prior job errors, retried in the C6
counterexample run. -/
def twoErrorsProject : Project :=
  { blankProject with
    status := .completed
    transcript := some testTranscript
    jobErrors := some { emptyJobErrors with
      summary := some "summary failed earlier"
      youtubeTimestamps := some "yt failed earlier" } }

/-- A completed chapterless project (free-tier processing artifact shape). -/
def noChaptersProject : Project :=
  { blankProject with status := .completed, transcript := some noChapterTranscript }

/-- A provider payload whose twitter post is 310 characters long. -/
def raw310 : SocialPosts :=
  { twitter := String.mk (List.replicate 310 'a')
    linkedin := "l", instagram := "i", tiktok := "t", youtube := "y", facebook := "f" }

/-- A pro-tier project that already has a summary artifact and nothing else. -/
def summaryOnlyProject : Project :=
  { blankProject with
    status := .completed
    transcript := some testTranscript
    summary := some
      { full := "full overview"
        bullets := ["b1", "b2", "b3", "b4", "b5"]
        insights := ["i1", "i2", "i3"]
        tldr := "tldr" } }

/-! ## Shared lemmas -/

/-- `FEATURE_TO_JOB_MAP` never sends two features to the same job. -/
theorem featureToJob_injective :
    ∀ (f g : FeatureName) (j : JobName),
      FEATURE_TO_JOB_MAP f = some j → FEATURE_TO_JOB_MAP g = some j → f = g := by
  decide

/-- The feature lists of the tier table have no duplicates. -/
theorem planFeatures_nodup (plan : PlanName) : (PLAN_FEATURES plan).Nodup := by
  cases plan <;> decide

/-- The filterMap step of `missingJobsFor` produces `some j` exactly when
the feature maps to `j` and `j`'s artifact is absent. -/
theorem missingStep_eq_some (p : Project) (f : FeatureName) (j : JobName) :
    (match FEATURE_TO_JOB_MAP f with
      | none => none
      | some jobName => if hasData p jobName then none else some jobName) = some j
      ↔ FEATURE_TO_JOB_MAP f = some j ∧ hasData p j = false := by
  cases hmap : FEATURE_TO_JOB_MAP f with
  | none => simp
  | some jn =>
      by_cases hd : hasData p jn = true
      · simp [hd]
        intro h
        rw [h] at hd
        simp [hd]
      · simp [hd]
        intro h
        rw [← h]
        simpa using hd

/-- Membership in the missing-jobs list is exactly "entitled and absent". -/
theorem mem_missingJobsFor (plan : PlanName) (p : Project) (j : JobName) :
    j ∈ missingJobsFor plan p ↔ j ∈ entitledJobs plan ∧ hasData p j = false := by
  simp only [missingJobsFor, entitledJobs, List.mem_filterMap, missingStep_eq_some]
  constructor
  · rintro ⟨f, hf, hmap, hdata⟩
    exact ⟨⟨f, hf, hmap⟩, hdata⟩
  · rintro ⟨⟨f, hf, hmap⟩, hdata⟩
    exact ⟨f, hf, hmap, hdata⟩

/-- The missing-jobs list never repeats a job. -/
theorem nodup_missingJobsFor (plan : PlanName) (p : Project) :
    (missingJobsFor plan p).Nodup := by
  refine List.Nodup.filterMap ?_ (planFeatures_nodup plan)
  intro a a' b hb hb'
  rw [Option.mem_def, missingStep_eq_some] at hb hb'
  exact featureToJob_injective a a' b hb.1 hb'.1

/-! ## Claims -/

/-- C9: the tier-to-entitlement mapping is monotone along
free < pro < ultra, both on the raw feature lists (`PLAN_FEATURES`) and on
the induced generation-task sets (`entitledJobs`). -/
theorem c9_entitlement_monotone :
    entitledJobs .free ⊆ entitledJobs .pro
    ∧ entitledJobs .pro ⊆ entitledJobs .ultra
    ∧ PLAN_FEATURES .free ⊆ PLAN_FEATURES .pro
    ∧ PLAN_FEATURES .pro ⊆ PLAN_FEATURES .ultra := by
  refine ⟨?_, ?_, ?_, ?_⟩ <;> · intro x hx; revert hx; revert x; decide

/-- C5: evaluation of `generateSocialPosts` at a provider payload whose
twitter post is 310 characters long.  `socialPostsSchema.parse` throws on
the `max(280)` bound before the truncation safety check can run, so the
persisted posts are the catch-branch placeholders — not the 280-character
truncation the spec (and the function's own comments) describe. -/
theorem c5_code_evaluation :
    raw310.twitter.length = 310
    ∧ generateSocialPosts (.content raw310) = socialPostsErrorFallback
    ∧ (generateSocialPosts (.content raw310)).twitter.length ≠ 280 := by
  decide

/-- C8: `generateMissingFeatures` targets exactly the set difference
between the tier's entitled generation tasks and the artifacts already
present, without duplicates; on a pro-tier project that already has a
summary it issues exactly the three invocations socialPosts, titles,
hashtags. -/
theorem c8_missing_jobs (plan : PlanName) (p : Project) (j : JobName) :
    (j ∈ missingJobsFor plan p ↔ j ∈ entitledJobs plan ∧ hasData p j = false)
    ∧ (missingJobsFor plan p).Nodup
    ∧ generateMissingFeatures .pro summaryOnlyProject
        = .ok [.socialPosts, .titles, .hashtags] :=
  ⟨mem_missingJobsFor plan p j, nodup_missingJobsFor plan p, by decide⟩

/-- Witness for C8 at a concrete plan, project and job. -/
theorem c8_witness :
    (JobName.socialPosts ∈ missingJobsFor .pro summaryOnlyProject
      ↔ JobName.socialPosts ∈ entitledJobs .pro
        ∧ hasData summaryOnlyProject .socialPosts = false)
    ∧ (missingJobsFor .pro summaryOnlyProject).Nodup
    ∧ generateMissingFeatures .pro summaryOnlyProject
        = .ok [.socialPosts, .titles, .hashtags] :=
  c8_missing_jobs .pro summaryOnlyProject .socialPosts

/-- C10: for a transcript with at least one chapter,
`generateYouTubeTimestamps` succeeds with exactly
`min(number of chapters, 100)` entries, one per chapter among the first
100 in chapter order (entry `i` formats chapter `i`'s start time), and an
entry's description is the chapter's original headline whenever no
AI-generated title with a matching index is available. -/
theorem c10_yt_timestamps (t : TranscriptWithExtras) (aiTitles : List AiTitle)
    (hch : t.chapters ≠ []) :
    ∃ l, generateYouTubeTimestamps t (.ok aiTitles) = .ok l
      ∧ l.length = min t.chapters.length 100
      ∧ ∀ (i : Nat) (hi : i < l.length) (hc : i < t.chapters.length),
          (l.get ⟨i, hi⟩).timestamp
            = formatTimestamp ((t.chapters.get ⟨i, hc⟩).start / 1000) false false
          ∧ ((aiTitles.find? fun a => a.index == i) = none →
              (l.get ⟨i, hi⟩).description = (t.chapters.get ⟨i, hc⟩).headline) := by
  have hne : t.chapters.isEmpty = false := by
    cases h : t.chapters with
    | nil => exact absurd h hch
    | cons a l => rfl
  simp only [generateYouTubeTimestamps, hne, Bool.false_eq_true, if_false]
  refine ⟨_, rfl, ?_, ?_⟩
  · simp [Nat.min_comm]
  · intro i hi hc
    have hi100 : i < (t.chapters.take 100).length := by
      simpa using hi
    simp only [List.get_eq_getElem, List.getElem_map, List.getElem_enum,
      List.getElem_take]
    constructor
    · trivial
    · intro hfind
      simp [hfind]

/-- Witness for C10 on a one-chapter transcript with no AI titles. -/
theorem c10_witness :
    testTranscript.chapters ≠ []
    ∧ ∃ l, generateYouTubeTimestamps testTranscript (.ok []) = .ok l
        ∧ l.length = min testTranscript.chapters.length 100
        ∧ ∀ (i : Nat) (hi : i < l.length) (hc : i < testTranscript.chapters.length),
            (l.get ⟨i, hi⟩).timestamp
              = formatTimestamp ((testTranscript.chapters.get ⟨i, hc⟩).start / 1000) false false
            ∧ ((([] : List AiTitle).find? fun a => a.index == i) = none →
                (l.get ⟨i, hi⟩).description = (testTranscript.chapters.get ⟨i, hc⟩).headline) :=
  ⟨by decide, c10_yt_timestamps testTranscript [] (by decide)⟩

/-- C2: whenever transcription succeeds, the orchestrator drives the
project to `completed` and stamps the completion time, for every plan and
every combination of generation-task outcomes; generation failures alone
never produce `failed`. -/
theorem c2_transcription_success_completes (env : GenEnv) (plan : PlanName)
    (p0 : Project) (now : Nat) (t : TranscriptWithExtras)
    (htr : env.transcriptionResult = .ok t) :
    (podcastProcessor env plan p0 now).project.status = .completed
    ∧ (podcastProcessor env plan p0 now).project.completedAt = some now
    ∧ (podcastProcessor env plan p0 now).project.status ≠ .failed := by
  simp [podcastProcessor, htr, updateProjectStatus]

/-- Witness for C2 on a concrete run whose four generation providers all
fail. -/
theorem c2_witness :
    env4Fail.transcriptionResult = .ok testTranscript
    ∧ (podcastProcessor env4Fail .pro blankProject 0).project.status = .completed
    ∧ (podcastProcessor env4Fail .pro blankProject 0).project.completedAt = some 0
    ∧ (podcastProcessor env4Fail .pro blankProject 0).project.status ≠ .failed :=
  ⟨by decide, c2_transcription_success_completes env4Fail .pro blankProject 0 testTranscript (by decide)⟩

/-- C1 as stated is false on the code: on a pro-tier run where the four
entitled tasks all fail at the provider, no task name enters `jobErrors`
(the field keeps its prior value) and all four fallback artifacts are
persisted. -/
theorem c1_counterexample :
    (podcastProcessor env4Fail .pro blankProject 0).project.status = .completed
    ∧ (podcastProcessor env4Fail .pro blankProject 0).project.jobStatus.contentGeneration = .completed
    ∧ (podcastProcessor env4Fail .pro blankProject 0).project.jobErrors = none
    ∧ (podcastProcessor env4Fail .pro blankProject 0).project.summary = some summaryErrorFallback
    ∧ (podcastProcessor env4Fail .pro blankProject 0).project.socialPosts = some socialPostsErrorFallback
    ∧ (podcastProcessor env4Fail .pro blankProject 0).project.titles = some titlesErrorFallback
    ∧ (podcastProcessor env4Fail .pro blankProject 0).project.hashtags = some hashtagsErrorFallback := by
  decide

/-- C1 amended: on a pro-tier run whose transcription succeeds and whose
four entitled generation tasks all fail at the provider, the workflow
still ends `completed` with `contentGeneration = completed`, but each task
catches its provider failure and fulfils with its fallback artifact:
`jobErrors` gains no entries and all four fallback artifacts are
persisted. -/
theorem c1_amended (env : GenEnv) (p0 : Project) (now : Nat)
    (t : TranscriptWithExtras) (m1 m2 m3 m4 : String)
    (htr : env.transcriptionResult = .ok t)
    (h1 : env.summaryResp = .failure m1)
    (h2 : env.socialResp = .failure m2)
    (h3 : env.titlesResp = .failure m3)
    (h4 : env.hashtagsResp = .failure m4) :
    (podcastProcessor env .pro p0 now).project.status = .completed
    ∧ (podcastProcessor env .pro p0 now).project.jobStatus.contentGeneration = .completed
    ∧ (podcastProcessor env .pro p0 now).project.jobErrors = p0.jobErrors
    ∧ (podcastProcessor env .pro p0 now).project.summary = some summaryErrorFallback
    ∧ (podcastProcessor env .pro p0 now).project.socialPosts = some socialPostsErrorFallback
    ∧ (podcastProcessor env .pro p0 now).project.titles = some titlesErrorFallback
    ∧ (podcastProcessor env .pro p0 now).project.hashtags = some hashtagsErrorFallback := by
  simp [podcastProcessor, htr, h1, h2, h3, h4, jobsFor, runTask, generateSummary,
    generateSocialPosts, generateTitles, generateHashtags, collectSucceeded,
    collectFailed, generatedContentOf, jobErrorsOf, saveGeneratedContent,
    saveJobErrors, updateJobStatus, updateProjectStatus, saveTranscript, patchField]

/-- Witness for the amended C1 at a concrete environment. -/
theorem c1_amended_witness :
    (podcastProcessor env4Fail .pro blankProject 0).project.status = .completed
    ∧ (podcastProcessor env4Fail .pro blankProject 0).project.jobStatus.contentGeneration = .completed
    ∧ (podcastProcessor env4Fail .pro blankProject 0).project.jobErrors = blankProject.jobErrors
    ∧ (podcastProcessor env4Fail .pro blankProject 0).project.summary = some summaryErrorFallback
    ∧ (podcastProcessor env4Fail .pro blankProject 0).project.socialPosts = some socialPostsErrorFallback
    ∧ (podcastProcessor env4Fail .pro blankProject 0).project.titles = some titlesErrorFallback
    ∧ (podcastProcessor env4Fail .pro blankProject 0).project.hashtags = some hashtagsErrorFallback :=
  c1_amended env4Fail blankProject 0 testTranscript
    "summary provider down" "social provider down" "titles provider down" "hashtags provider down"
    (by decide) (by decide) (by decide) (by decide) (by decide)

/-- C4: for every project whose transcription stage fails, the project is
marked `failed` with the recorded error carrying step name
`"transcription"`, and zero generation tasks are invoked.  The
orchestrator's top-level catch does attempt a second, `"workflow"`-step
record, but it passes a string for `details` where the validator requires
a `{statusCode?, stack?}` object, so that write is rejected (the last
conjunct) and swallowed by the cleanup catch, leaving the stage's record
in place. -/
theorem c4_transcription_failure (env : GenEnv) (plan : PlanName) (p0 : Project)
    (now : Nat) (msg : String) (htr : env.transcriptionResult = .error msg) :
    (podcastProcessor env plan p0 now).project.status = .failed
    ∧ (podcastProcessor env plan p0 now).project.error
        = some { message := msg, step := "transcription", timestamp := now, details := none }
    ∧ (podcastProcessor env plan p0 now).launchedJobs = []
    ∧ ∀ q, recordError (podcastProcessor env plan p0 now).project msg "workflow"
        (.str msg) now ≠ .ok q := by
  simp [podcastProcessor, htr, recordError, updateProjectStatus, updateJobStatus]

/-- Witness for C4 at a concrete environment with a failing transcription
provider. -/
theorem c4_witness :
    (podcastProcessor envTransFail .free blankProject 7).project.status = .failed
    ∧ (podcastProcessor envTransFail .free blankProject 7).project.error
        = some { message := "AssemblyAI transcription failed", step := "transcription",
                 timestamp := 7, details := none }
    ∧ (podcastProcessor envTransFail .free blankProject 7).launchedJobs = []
    ∧ ∀ q, recordError (podcastProcessor envTransFail .free blankProject 7).project
        "AssemblyAI transcription failed" "workflow"
        (.str "AssemblyAI transcription failed") 7 ≠ .ok q :=
  c4_transcription_failure envTransFail .free blankProject 7
    "AssemblyAI transcription failed" (by decide)

/-- A job name is collected as succeeded exactly when it was launched and
its promise fulfilled. -/
theorem mem_collectSucceeded (names : List JobName) (outcome : JobName → Settled)
    (j : JobName) :
    j ∈ (collectSucceeded (names.map fun a => (a, outcome a))).map Prod.fst
      ↔ j ∈ names ∧ ∃ v, outcome j = .fulfilled v := by
  simp only [collectSucceeded, List.filterMap_map, List.map_filterMap,
    List.mem_filterMap, Function.comp]
  constructor
  · rintro ⟨a, ha, h⟩
    cases ho : outcome a with
    | fulfilled v =>
        simp only [ho, Option.map_some] at h
        obtain rfl : a = j := by simpa using h
        exact ⟨ha, v, ho⟩
    | rejected e => simp [ho] at h
  · rintro ⟨hj, v, hv⟩
    exact ⟨j, hj, by simp [hv]⟩

/-- A job name is collected as failed exactly when it was launched and its
promise rejected. -/
theorem mem_collectFailed (names : List JobName) (outcome : JobName → Settled)
    (j : JobName) :
    j ∈ (collectFailed (names.map fun a => (a, outcome a))).map Prod.fst
      ↔ j ∈ names ∧ ∃ e, outcome j = .rejected e := by
  simp only [collectFailed, List.filterMap_map, List.map_filterMap,
    List.mem_filterMap, Function.comp]
  constructor
  · rintro ⟨a, ha, h⟩
    cases ho : outcome a with
    | rejected e =>
        simp only [ho, Option.map_some] at h
        obtain rfl : a = j := by simpa using h
        exact ⟨ha, e, ho⟩
    | fulfilled v => simp [ho] at h
  · rintro ⟨hj, e, he⟩
    exact ⟨j, hj, by simp [he]⟩

/-- C3: the two maps the fan-out collector builds partition the launched
task set exactly — every launched name lands in exactly one of
succeeded/failed, and no other name appears. -/
theorem c3_partition (plan : PlanName) (outcome : JobName → Settled) (j : JobName) :
    ((j ∈ (collectSucceeded ((jobsFor plan).map fun a => (a, outcome a))).map Prod.fst
        ∨ j ∈ (collectFailed ((jobsFor plan).map fun a => (a, outcome a))).map Prod.fst)
      ↔ j ∈ jobsFor plan)
    ∧ ¬(j ∈ (collectSucceeded ((jobsFor plan).map fun a => (a, outcome a))).map Prod.fst
        ∧ j ∈ (collectFailed ((jobsFor plan).map fun a => (a, outcome a))).map Prod.fst) := by
  rw [mem_collectSucceeded, mem_collectFailed]
  constructor
  · constructor
    · rintro (⟨hj, _⟩ | ⟨hj, _⟩) <;> exact hj
    · intro hj
      cases ho : outcome j with
      | fulfilled v => exact .inl ⟨hj, v, rfl⟩
      | rejected e => exact .inr ⟨hj, e, rfl⟩
  · rintro ⟨⟨_, v, hv⟩, ⟨_, e, he⟩⟩
    rw [hv] at he
    exact Settled.noConfusion he

/-- Witness for C3 at a concrete plan, outcome function and job. -/
theorem c3_witness :
    ((JobName.summary
        ∈ (collectSucceeded ((jobsFor .pro).map fun a =>
            (a, runTask env4Fail testTranscript a))).map Prod.fst
      ∨ JobName.summary
        ∈ (collectFailed ((jobsFor .pro).map fun a =>
            (a, runTask env4Fail testTranscript a))).map Prod.fst)
      ↔ JobName.summary ∈ jobsFor .pro)
    ∧ ¬(JobName.summary
          ∈ (collectSucceeded ((jobsFor .pro).map fun a =>
              (a, runTask env4Fail testTranscript a))).map Prod.fst
        ∧ JobName.summary
          ∈ (collectFailed ((jobsFor .pro).map fun a =>
              (a, runTask env4Fail testTranscript a))).map Prod.fst) :=
  c3_partition .pro (runTask env4Fail testTranscript) .summary

/-- A successful regeneration write never touches `status`. -/
theorem retrySwitch_ok_status (env : GenEnv) (t : TranscriptWithExtras)
    (job : JobName) (p p1 : Project) (now : Nat)
    (h : retrySwitch env t job p now = .ok p1) : p1.status = p.status := by
  cases job <;> simp only [retrySwitch] at h
  case keyMoments =>
    cases hk : env.keyMomentsResult with
    | ok k => rw [hk] at h; obtain rfl := Except.ok.inj h; rfl
    | error e => rw [hk] at h; exact Except.noConfusion h
  case youtubeTimestamps =>
    cases hy : generateYouTubeTimestamps t env.ytResp with
    | ok l => rw [hy] at h; obtain rfl := Except.ok.inj h; rfl
    | error e => rw [hy] at h; exact Except.noConfusion h
  all_goals obtain rfl := Except.ok.inj h; rfl

/-- C6 amended: a `retryTask` run never alters `status`; on success it
writes back the originally-read `jobErrors` with this task's entry
deleted (clearing it, leaving every other entry unchanged); on failure it
replaces `jobErrors` wholesale by the singleton `{ [task]: message }`,
erasing entries for other task names (unless the throw happened before
the regeneration, in which case the project is untouched). -/
theorem c6_amended (env : GenEnv) (job : JobName) (cp op : PlanName)
    (p : Project) (now : Nat) :
    (retryJobFunction env job cp op p now).project.status = p.status
    ∧ ((retryJobFunction env job cp op p now).thrown = none →
        (retryJobFunction env job cp op p now).project.jobErrors
          = some ((p.jobErrors.getD emptyJobErrors).erase job))
    ∧ (∀ msg, (retryJobFunction env job cp op p now).thrown = some msg →
        (retryJobFunction env job cp op p now).project.jobErrors
            = some (singletonJobErrors job msg)
          ∨ (retryJobFunction env job cp op p now).project = p)
    ∧ (∀ (je : JobErrors) (j2 : JobName), j2 ≠ job →
        (je.erase job).get j2 = je.get j2 ∧ (je.erase job).get job = none)
    ∧ (∀ (msg : String) (j2 : JobName), j2 ≠ job →
        (singletonJobErrors job msg).get j2 = none
          ∧ (singletonJobErrors job msg).get job = some msg) := by
  refine ⟨?_, ?_, ?_, ?_, ?_⟩
  · simp only [retryJobFunction]
    split
    · rfl
    · split
      · rfl
      · split
        · rfl
        · split
          · rfl
          · split
            · rename_i p1 hok
              simpa [saveJobErrors] using retrySwitch_ok_status env _ job p p1 now hok
            · simp [saveJobErrors]
  · simp only [retryJobFunction]
    split
    · intro h; exact absurd h (by simp)
    · split
      · intro h; exact absurd h (by simp)
      · split
        · intro h; exact absurd h (by simp)
        · split
          · intro h; exact absurd h (by simp)
          · split
            · intro _; simp [saveJobErrors]
            · intro h; exact absurd h (by simp)
  · simp only [retryJobFunction]
    split
    · intro msg _; exact .inr rfl
    · split
      · intro msg _; exact .inr rfl
      · split
        · intro msg _; exact .inr rfl
        · split
          · intro msg _; exact .inr rfl
          · split
            · intro msg h; exact absurd h (by simp)
            · rename_i msg0 _
              intro msg h
              obtain rfl : msg0 = msg := by simpa using h
              exact .inl (by simp [saveJobErrors])
  · intro je j2 hne
    cases job <;> cases j2 <;>
      simp_all [JobErrors.erase, JobErrors.get]
  · intro msg j2 hne
    cases job <;> cases j2 <;>
      simp_all [singletonJobErrors, emptyJobErrors, JobErrors.get]

/-- Witness for C6: the status clause at a concrete failing retry run. -/
theorem c6_witness :
    (retryJobFunction envYtFail .youtubeTimestamps .ultra .free twoErrorsProject 3).project.status
      = twoErrorsProject.status :=
  (c6_amended envYtFail .youtubeTimestamps .ultra .free twoErrorsProject 3).1

/-- C6 as stated is false on the code: when the retried task fails, the
whole `jobErrors` map is replaced by the singleton entry, wiping the
entries of the other task names. -/
theorem c6_counterexample :
    (retryJobFunction envYtFail .youtubeTimestamps .ultra .free twoErrorsProject 3).thrown
        = some "yt provider down"
    ∧ (retryJobFunction envYtFail .youtubeTimestamps .ultra .free twoErrorsProject 3).project.jobErrors
        = some (singletonJobErrors .youtubeTimestamps "yt provider down")
    ∧ (twoErrorsProject.jobErrors.getD emptyJobErrors).summary = some "summary failed earlier"
    ∧ ((retryJobFunction envYtFail .youtubeTimestamps .ultra .free twoErrorsProject 3).project.jobErrors.getD
          emptyJobErrors).summary ≠ some "summary failed earlier" := by
  decide

/-- C7 amended: `retryTask` throws the typed precondition errors — the
not-entitled error (whose message asks for an upgrade) when the task is
not entitled under the current tier, the missing-transcript error when no
transcript is persisted, and the no-chapters error for
`keyMoments`/`youtubeTimestamps` on a chapterless transcript — but every
one of these throws happens before the `try` block, so the project is
left untouched: in the no-chapters scenario `status` stays `completed`
and `jobErrors.youtubeTimestamps` is *not* set. -/
theorem c7_amended (env : GenEnv) (job : JobName) (cp op : PlanName)
    (p : Project) (now : Nat) :
    (∀ f, jobToFeature job = some f → planHasFeature cp f = false →
      retryJobFunction env job cp op p now
        = { project := p, thrown := some (notEntitledMessage (jobNameString job)) })
    ∧ ((∀ f, jobToFeature job = some f → planHasFeature cp f = true) →
        p.transcript = none →
        retryJobFunction env job cp op p now
          = { project := p, thrown := some "Project or transcript not found" })
    ∧ ((∀ f, jobToFeature job = some f → planHasFeature cp f = true) →
        ∀ t, p.transcript = some t → t.text.length ≠ 0 →
        (job = .keyMoments ∨ job = .youtubeTimestamps) → t.chapters = [] →
        retryJobFunction env job cp op p now
          = { project := p, thrown := some (noChaptersMessage job) }) := by
  refine ⟨?_, ?_, ?_⟩
  · intro f hf hpf
    simp [retryJobFunction, hf, hpf]
  · intro hent hT
    cases hjf : jobToFeature job with
    | none => simp [retryJobFunction, hjf, hT]
    | some f => simp [retryJobFunction, hjf, hent f hjf, hT]
  · intro hent t hT htext hjob hchap
    cases hjf : jobToFeature job with
    | none => simp [retryJobFunction, hjf, hT, htext, hjob, hchap]
    | some f => simp [retryJobFunction, hjf, hent f hjf, hT, htext, hjob, hchap]

/-- Witness for C7: the no-chapters branch at a concrete ultra-tier retry
of YouTube timestamps on a chapterless completed project. -/
theorem c7_witness :
    retryJobFunction envYtFail .youtubeTimestamps .ultra .free noChaptersProject 3
      = { project := noChaptersProject
          thrown := some (noChaptersMessage .youtubeTimestamps) } :=
  (c7_amended envYtFail .youtubeTimestamps .ultra .free noChaptersProject 3).2.2
    (by decide) noChapterTranscript rfl (by decide) (.inr rfl) rfl

/-- C7 as stated is false on the code in its jobErrors clause: in the
no-chapters scenario the precondition throw happens before the `try`
block, so `jobErrors.youtubeTimestamps` is never written (the field stays
empty) even though `status` does remain `completed`. -/
theorem c7_counterexample :
    (retryJobFunction envYtFail .youtubeTimestamps .ultra .free noChaptersProject 3).thrown
        = some (noChaptersMessage .youtubeTimestamps)
    ∧ (retryJobFunction envYtFail .youtubeTimestamps .ultra .free noChaptersProject 3).project.jobErrors
        = none
    ∧ (retryJobFunction envYtFail .youtubeTimestamps .ultra .free noChaptersProject 3).project.status
        = .completed := by
  decide

end PodcastSaas
